import Mathlib

/-!
Shallow embedding of the group translation bot in `src/mybot.py`
(class `GroupManager`): the sqlite-backed settings store, the Python
string operations used by the encoding of `source_langs`, the message
translation pipeline `handle_translation`, the admin commands
`toggle_translation` and `ban_user`, and a small interleaving machine
for the lock granularity of `toggle_translation` (the Python code takes
`db_lock` separately inside `_get_group_settings` and
`_update_group_settings`, so a toggle's read and write are two distinct
critical sections).
-/

set_option autoImplicit false
set_option maxHeartbeats 1000000

namespace Bot

/-- Python whitespace test used by `str.strip()` (ASCII whitespace). -/
def isPySpace (c : Char) : Bool :=
  c = ' ' || c = '\t' || c = '\n' || c = '\r' || c = '\x0b' || c = '\x0c'

/-- Python `text.strip()`: drop whitespace at both ends. -/
def pyStrip (s : String) : String :=
  String.mk (((s.data.dropWhile isPySpace).reverse.dropWhile isPySpace).reverse)

/-- Python `text.split(',')` at the character-list level: splitting the
empty list yields one empty field, matching `''.split(',') == ['']`. -/
def splitC : List Char → List (List Char)
  | [] => [[]]
  | c :: rest =>
    if c = ',' then [] :: splitC rest
    else
      match splitC rest with
      | [] => [[c]]
      | h :: t => (c :: h) :: t

/-- Python `','.join(fields)` at the character-list level. -/
def joinC : List (List Char) → List Char
  | [] => []
  | [x] => x
  | x :: y :: t => x ++ ',' :: joinC (y :: t)

/-- Python `s.split(',')` on strings, as used when decoding the
`source_langs` column. -/
def pySplit (s : String) : List String :=
  (splitC s.data).map String.mk

/-- Python `','.join(langs)` on strings, as used when encoding the
`source_langs` column. -/
def pyJoin (L : List String) : String :=
  String.mk (joinC (L.map String.data))

/-- One row of the sqlite `groups` table: `group_id` is the primary key,
`auto_translate` is stored as an integer, `source_langs` comma-joined. -/
structure Row where
  group_id : Int
  group_name : String
  auto_translate : Int
  source_langs : String
  target_lang : String
deriving DecidableEq, Repr

/-- The `groups` table; `INSERT OR REPLACE` keeps at most one row per key. -/
abbrev Store := List Row

/-- The settings dict handed around by the Python code. The default dict
built by `_get_group_settings` has no `group_name` key, hence the
`Option` on that field. -/
structure GroupSettings where
  group_id : Int
  group_name : Option String
  auto_translate : Bool
  source_langs : List String
  target_lang : String
deriving DecidableEq, Repr

/-- The default settings dict returned when no row exists (mybot.py
lines 86-93): no `group_name` key, translation off, `['en','id'] -> 'my'`. -/
def defaultSettings (gid : Int) : GroupSettings :=
  { group_id := gid, group_name := none, auto_translate := false,
    source_langs := ["en", "id"], target_lang := "my" }

/-- `GroupManager._get_group_settings` (lines 78-101): SELECT the row for
`group_id`; if absent return the default dict, else decode `bool(result[2])`
and `result[3].split(',')`. The SELECT mutates nothing. -/
def _get_group_settings (st : Store) (gid : Int) : GroupSettings :=
  match st.find? (fun r => r.group_id == gid) with
  | none => defaultSettings gid
  | some r =>
    { group_id := r.group_id, group_name := some r.group_name,
      auto_translate := r.auto_translate != 0,
      source_langs := pySplit r.source_langs, target_lang := r.target_lang }

/-- `GroupManager._update_group_settings` (lines 103-119): INSERT OR
REPLACE the full row, encoding `settings.get('group_name','')`,
`int(auto_translate)` and `','.join(source_langs)`. -/
def _update_group_settings (st : Store) (gid : Int) (s : GroupSettings) : Store :=
  { group_id := gid, group_name := s.group_name.getD "",
    auto_translate := if s.auto_translate then 1 else 0,
    source_langs := pyJoin s.source_langs,
    target_lang := s.target_lang } :: st.filter (fun r => r.group_id != gid)

/-- The googletrans calls made by `detect_language` / `translate_text`;
`Except.error` models the call raising an exception. -/
structure Provider where
  detect : String → Except String String
  translate : String → String → String → Except String String

/-- `GroupManager.detect_language` (lines 121-127): return the detected
language, or `None` when the provider call raised (the `except` clause). -/
def detect_language (p : Provider) (text : String) : Option String :=
  match p.detect text with
  | Except.ok detection => some detection
  | Except.error _ => none

/-- `GroupManager.translate_text` (lines 129-135): return the translated
text, or `None` when the provider call raised (the `except` clause). -/
def translate_text (p : Provider) (text src_lang dest_lang : String) : Option String :=
  match p.translate text src_lang dest_lang with
  | Except.ok t => some t
  | Except.error _ => none

/-- Outcome of evaluating one message. The `Skip` reason strings label the
`return` branches of `handle_translation` with the names the design gives
them; the Python code returns without distinguishing them to users. -/
inductive Action where
  | Skip (reason : String)
  | Translate (src dst text : String)
deriving DecidableEq, Repr

/-- Outward calls made while handling one event: provider calls,
`message.reply_text`, and `bot.ban_chat_member`. -/
inductive Eff where
  | detect (text : String)
  | translate (text src dst : String)
  | reply (text : String)
  | banMember (chat_id user_id : Int)
deriving DecidableEq, Repr

/-- The `SUPPORTED_LANGS` dict (lines 23-27) read through `.get(code, code)`. -/
def SUPPORTED_LANGS (code : String) : String :=
  if code = "en" then "English"
  else if code = "id" then "Indonesian"
  else if code = "my" then "Myanmar"
  else code

/-- The reply string built at lines 169-173. -/
def translationReply (src dst t : String) : String :=
  "🌐 Translated from " ++ SUPPORTED_LANGS src ++ " to " ++ SUPPORTED_LANGS dst
    ++ ":\n\n" ++ t

/-- `GroupManager.handle_translation` (lines 137-174), with the trace of
outward calls it makes. Branch order follows the source: disabled check,
length check on `text.strip()`, detection (`not src_lang or src_lang not in
source_langs`), target-language check, translation, and a reply only when
the translated text is truthy. -/
def handle_translation (p : Provider) (st : Store) (gid : Int) (text : String) :
    Action × List Eff :=
  if (_get_group_settings st gid).auto_translate = false then
    (Action.Skip "disabled", [])
  else if text = "" ∨ (pyStrip text).length < 5 then
    (Action.Skip "too short", [])
  else
    match detect_language p text with
    | none => (Action.Skip "detection failed", [Eff.detect text])
    | some src_lang =>
      if src_lang = "" then (Action.Skip "detection failed", [Eff.detect text])
      else if src_lang ∈ (_get_group_settings st gid).source_langs then
        if src_lang = (_get_group_settings st gid).target_lang then
          (Action.Skip "already target language", [Eff.detect text])
        else
          match translate_text p text src_lang (_get_group_settings st gid).target_lang with
          | none =>
            (Action.Skip "translation failed",
              [Eff.detect text,
               Eff.translate text src_lang (_get_group_settings st gid).target_lang])
          | some translated =>
            if translated = "" then
              (Action.Skip "translation failed",
                [Eff.detect text,
                 Eff.translate text src_lang (_get_group_settings st gid).target_lang])
            else
              (Action.Translate src_lang (_get_group_settings st gid).target_lang translated,
                [Eff.detect text,
                 Eff.translate text src_lang (_get_group_settings st gid).target_lang,
                 Eff.reply (translationReply src_lang
                   ((_get_group_settings st gid).target_lang) translated)])
      else (Action.Skip "source not eligible", [Eff.detect text])

/-- The in-memory mutation performed by `toggle_translation` between its
read and its write (lines 181-187): flip `auto_translate`, then overwrite
`group_name` only when the chat title is truthy. -/
def toggleBody (s : GroupSettings) (title : Option String) : GroupSettings :=
  let s1 := { s with auto_translate := !s.auto_translate }
  match title with
  | none => s1
  | some t => if t = "" then s1 else { s1 with group_name := some t }

/-- `GroupManager.toggle_translation` (lines 176-189) restricted to its
store effect: read, flip, maybe rename, upsert. -/
def toggle_translation (st : Store) (gid : Int) (title : Option String) : Store :=
  _update_group_settings st gid (toggleBody (_get_group_settings st gid) title)

/-- A Settings Store operation: `read` is the SELECT in
`_get_group_settings`, `upsert` the INSERT OR REPLACE in
`_update_group_settings`. -/
inductive Op where
  | read (gid : Int)
  | upsert (gid : Int) (s : GroupSettings)
deriving DecidableEq

/-- Effect of one store operation on the table: a SELECT leaves it
unchanged, an upsert replaces the row. -/
def applyOp (st : Store) : Op → Store
  | Op.read _ => st
  | Op.upsert gid s => _update_group_settings st gid s

/-- Run a history of store operations from the freshly created table. -/
def execOps (ops : List Op) : Store :=
  ops.foldl applyOp []

/-- Whether an operation is an upsert of the given group. -/
def upsertsGroup (o : Op) (gid : Int) : Bool :=
  match o with
  | Op.read _ => false
  | Op.upsert g _ => g == gid

/-- Inputs of `GroupManager.ban_user` (lines 198-212): the replied-to
user's id if the command message is a reply, the chat id, and the outcome
of `bot.ban_chat_member` if invoked (`Except.error` models the raise). -/
structure BanContext where
  reply_to_user : Option Int
  chat_id : Int
  ban_result : Except String Unit

/-- The success reply of `ban_user`; the user mention is abstracted to the
user's id rendered as text. -/
def banSuccessReply (uid : Int) : String :=
  "🚫 User " ++ toString uid ++ " has been banned."

/-- `GroupManager.ban_user` (lines 198-212), with its outward calls and
its (unchanged) store. Without a replied-to message it only sends the
corrective reply; otherwise it calls the ban primitive and reports. -/
def ban_user (ctx : BanContext) (st : Store) : List Eff × Store :=
  match ctx.reply_to_user with
  | none => ([Eff.reply "Please reply to the user's message to ban them."], st)
  | some uid =>
    match ctx.ban_result with
    | Except.ok _ =>
      ([Eff.banMember ctx.chat_id uid, Eff.reply (banSuccessReply uid)], st)
    | Except.error _ =>
      ([Eff.banMember ctx.chat_id uid,
        Eff.reply "Failed to ban user. I might not have admin privileges."], st)

/-- Progress of one in-flight `toggle_translation`: before its read
critical section, between read and write holding the settings it read, or
finished. Each `db_lock` acquisition in the source is one atomic step. -/
inductive Phase where
  | start
  | mid (s : GroupSettings)
  | done
deriving DecidableEq

/-- One atomic step of a toggle thread: the read critical section, or the
write critical section applied to the settings read earlier. -/
def stepThread (gid : Int) (title : Option String) : Store → Phase → Store × Phase
  | st, Phase.start => (st, Phase.mid (_get_group_settings st gid))
  | st, Phase.mid s => (_update_group_settings st gid (toggleBody s title), Phase.done)
  | st, Phase.done => (st, Phase.done)

/-- Interleave two toggle invocations on the same group according to a
schedule (`true` steps thread A, `false` steps thread B). Every schedule
is a legal execution because the source holds `db_lock` only inside each
single store call. -/
def runSched (gid : Int) (tA tB : Option String) :
    List Bool → Store × Phase × Phase → Store × Phase × Phase
  | [], c => c
  | true :: rest, (st, pA, pB) =>
    let r := stepThread gid tA st pA
    runSched gid tA tB rest (r.1, r.2, pB)
  | false :: rest, (st, pA, pB) =>
    let r := stepThread gid tB st pB
    runSched gid tA tB rest (r.1, pA, r.2)

example : pySplit "en,id" = ["en", "id"] := by decide
example : pyJoin ["en", "id"] = "en,id" := by decide
example : (pyStrip " hi ").length = 2 := by decide
example : (_get_group_settings [] 5).auto_translate = false := by decide

/-! Helper lemmas about the comma encoding and the store. -/

theorem splitC_ne_nil (l : List Char) : splitC l ≠ [] := by
  induction l with
  | nil => simp [splitC]
  | cons c rest ih =>
    by_cases hc : c = ','
    · simp [splitC, hc]
    · cases hsr : splitC rest with
      | nil => simp [splitC, hc, hsr]
      | cons h t => simp [splitC, hc, hsr]

theorem splitC_comma_free (l : List Char) :
    ∀ a ∈ splitC l, ',' ∉ a := by
  induction l with
  | nil =>
    intro a ha
    simp [splitC] at ha
    simp [ha]
  | cons c rest ih =>
    intro a ha
    by_cases hc : c = ','
    · simp [splitC, hc] at ha
      rcases ha with ha | ha
      · simp [ha]
      · exact ih a ha
    · cases hsr : splitC rest with
      | nil => exact absurd hsr (splitC_ne_nil rest)
      | cons h t =>
        simp [splitC, hc, hsr] at ha
        rcases ha with ha | ha
        · subst ha
          have hh : ',' ∉ h := ih h (by simp [hsr])
          simp [hc, hh]
          intro hcc
          exact hc hcc.symm
        · exact ih a (by simp [hsr, ha])

theorem splitC_no_comma (a : List Char) (h : ',' ∉ a) : splitC a = [a] := by
  induction a with
  | nil => simp [splitC]
  | cons c rest ih =>
    have hc : ¬ c = ',' := by
      intro hc
      exact h (by simp [hc])
    have hrest : ',' ∉ rest := by
      intro hr
      exact h (by simp [hr])
    simp [splitC, hc, ih hrest]

theorem splitC_prepend (a r : List Char) (h : ',' ∉ a) :
    splitC (a ++ ',' :: r) = a :: splitC r := by
  induction a with
  | nil => simp [splitC]
  | cons c rest ih =>
    have hc : ¬ c = ',' := by
      intro hc
      exact h (by simp [hc])
    have hrest : ',' ∉ rest := by
      intro hr
      exact h (by simp [hr])
    simp [splitC, hc, ih hrest]

theorem splitC_joinC (L : List (List Char)) (hne : L ≠ [])
    (hcf : ∀ a ∈ L, ',' ∉ a) : splitC (joinC L) = L := by
  induction L with
  | nil => exact absurd rfl hne
  | cons x t ih =>
    cases t with
    | nil => simpa [joinC] using splitC_no_comma x (hcf x (by simp))
    | cons y t2 =>
      have hx : ',' ∉ x := hcf x (by simp)
      have ht : ∀ a ∈ y :: t2, ',' ∉ a := by
        intro a ha
        exact hcf a (by simp [ha])
      calc splitC (joinC (x :: y :: t2))
          = splitC (x ++ ',' :: joinC (y :: t2)) := by rw [joinC]
        _ = x :: splitC (joinC (y :: t2)) := splitC_prepend _ _ hx
        _ = x :: y :: t2 := by rw [ih (by simp) ht]

theorem strMk_data (s : String) : String.mk s.data = s := by
  cases s
  rfl

theorem pySplit_pyJoin (L : List String) (hne : L ≠ [])
    (hcf : ∀ s ∈ L, ',' ∉ s.data) : pySplit (pyJoin L) = L := by
  unfold pySplit pyJoin
  have hne2 : L.map String.data ≠ [] := by
    simpa using hne
  have hcf2 : ∀ a ∈ L.map String.data, ',' ∉ a := by
    intro a ha
    rcases List.mem_map.mp ha with ⟨s, hs, rfl⟩
    exact hcf s hs
  rw [show (String.mk (joinC (L.map String.data))).data = joinC (L.map String.data) from rfl]
  rw [splitC_joinC _ hne2 hcf2, List.map_map]
  have : (String.mk ∘ String.data) = id := by
    funext s
    exact strMk_data s
  rw [this, List.map_id]

/-- Every settings dict produced by a read has a non-empty `source_langs`
whose codes contain no comma (both the default and any split text). -/
theorem read_good_langs (st : Store) (gid : Int) :
    (_get_group_settings st gid).source_langs ≠ [] ∧
      ∀ l ∈ (_get_group_settings st gid).source_langs, ',' ∉ l.data := by
  unfold _get_group_settings
  cases hf : st.find? (fun r => r.group_id == gid) with
  | none =>
    refine ⟨by simp [defaultSettings], ?_⟩
    intro l hl
    simp [defaultSettings] at hl
    rcases hl with hl | hl <;> simp [hl]
  | some r =>
    refine ⟨?_, ?_⟩
    · simp only [pySplit]
      intro hmap
      exact splitC_ne_nil r.source_langs.data (List.map_eq_nil_iff.mp hmap)
    · intro l hl
      simp only [pySplit] at hl
      rcases List.mem_map.mp hl with ⟨a, ha, rfl⟩
      exact splitC_comma_free _ a ha

theorem read_roundtrip_langs (st : Store) (gid : Int) :
    pySplit (pyJoin ((_get_group_settings st gid).source_langs))
      = (_get_group_settings st gid).source_langs :=
  pySplit_pyJoin _ (read_good_langs st gid).1 (read_good_langs st gid).2

/-- Decoding the integer encoding of the flag is the identity. -/
theorem decode_encode_bool (b : Bool) : ((if b then (1 : Int) else 0) != 0) = b := by
  cases b <;> rfl

/-- Reading back the group just upserted returns the stored record,
decoded: `group_name` materialized via `.get('group_name','')`, the flag
through `int`/`bool`, and `source_langs` through join then split. -/
theorem read_upsert_self (st : Store) (gid : Int) (s : GroupSettings) :
    _get_group_settings (_update_group_settings st gid s) gid =
      { group_id := gid, group_name := some (s.group_name.getD ""),
        auto_translate := s.auto_translate,
        source_langs := pySplit (pyJoin s.source_langs),
        target_lang := s.target_lang } := by
  unfold _get_group_settings _update_group_settings
  simp [List.find?, decode_encode_bool]

/-- Reading a different group is unaffected by an upsert. -/
theorem read_upsert_ne (st : Store) (g g' : Int) (s : GroupSettings)
    (h : g ≠ g') :
    _get_group_settings (_update_group_settings st g' s) g
      = _get_group_settings st g := by
  unfold _get_group_settings _update_group_settings
  have hhead : ((g' : Int) == g) = false := by
    simp [Ne.symm h]
  have hfilter : ∀ l : List Row,
      (l.filter (fun r => r.group_id != g')).find? (fun r => r.group_id == g)
        = l.find? (fun r => r.group_id == g) := by
    intro l
    induction l with
    | nil => rfl
    | cons r t ih =>
      by_cases hg : r.group_id = g
      · have h1 : (r.group_id != g') = true := by
          simp [hg, h]
        simp [List.filter_cons, h1, List.find?, hg, h]
      · by_cases hg' : r.group_id = g'
        · have h1 : (r.group_id != g') = false := by
            simp [hg']
          have h2 : (r.group_id == g) = false := by
            simp [hg]
          simp [List.filter_cons, h1, List.find?, h2, ih]
        · have h1 : (r.group_id != g') = true := by
            simp [hg']
          have h2 : (r.group_id == g) = false := by
            simp [hg]
          simp [List.filter_cons, h1, List.find?, h2, ih]
  simp [List.find?, hhead, hfilter]

/-- Reading after any prefix of store operations that never upserts the
group still gives the default, and reading never changes the table. -/
theorem read_untouched_foldl (g : Int) :
    ∀ (ops : List Op) (st : Store), (∀ o ∈ ops, upsertsGroup o g = false) →
      _get_group_settings (ops.foldl applyOp st) g = _get_group_settings st g := by
  intro ops
  induction ops with
  | nil =>
    intro st _
    rfl
  | cons o t ih =>
    intro st hall
    have ho := hall o (List.mem_cons_self o t)
    have ht : ∀ o' ∈ t, upsertsGroup o' g = false := by
      intro o' hm
      exact hall o' (List.mem_cons_of_mem _ hm)
    rw [List.foldl_cons]
    rw [ih (applyOp st o) ht]
    cases o with
    | read _ => rfl
    | upsert g' s =>
      have hne : g ≠ g' := by
        simp [upsertsGroup] at ho
        exact fun hcontra => ho hcontra.symm
      exact read_upsert_ne st g g' s hne

/-- C2: a group identifier never upserted reads as the default record
(`auto_translate = false`, `source_langs = [en, id]`, `target_lang = my`,
no `group_name` key), however the table was built; appending a further
read leaves the table unchanged, so repeated reads return the same
default record and a read persists nothing. -/
theorem c2_default_read (ops : List Op) (g : Int)
    (h : ∀ o ∈ ops, upsertsGroup o g = false) :
    _get_group_settings (execOps ops) g = defaultSettings g ∧
      execOps (ops ++ [Op.read g]) = execOps ops := by
  constructor
  · exact read_untouched_foldl g ops [] h
  · simp [execOps, List.foldl_append, applyOp]

/-- Witness for C2: a history upserting only group 2 and reading group 1
twice; group 1 still reads as the default record. -/
theorem c2_default_read_witness :
    _get_group_settings
        (execOps [Op.upsert 2 (defaultSettings 2), Op.read 1, Op.read 1]) 1
      = defaultSettings 1 ∧
      execOps ([Op.upsert 2 (defaultSettings 2), Op.read 1, Op.read 1] ++ [Op.read 1])
        = execOps [Op.upsert 2 (defaultSettings 2), Op.read 1, Op.read 1] :=
  c2_default_read [Op.upsert 2 (defaultSettings 2), Op.read 1, Op.read 1] 1 (by decide)

/-- Reading the toggled group after `toggle_translation` with no chat
title: the flag is flipped, the languages survive the join/split round
trip, and `group_name` is materialized via `.get('group_name','')`. -/
theorem read_toggle_none (st : Store) (gid : Int) :
    _get_group_settings (toggle_translation st gid none) gid =
      { group_id := gid,
        group_name := some ((_get_group_settings st gid).group_name.getD ""),
        auto_translate := !(_get_group_settings st gid).auto_translate,
        source_langs := (_get_group_settings st gid).source_langs,
        target_lang := (_get_group_settings st gid).target_lang } := by
  unfold toggle_translation
  rw [read_upsert_self]
  simp [toggleBody, read_roundtrip_langs st gid]

/-- C3 counterexample: for a group that was never configured, two toggles
with no display name change the readable `group_name` from absent to the
empty string, so `group_name` is not unaffected. -/
theorem c3_counterexample :
    (_get_group_settings
        (toggle_translation (toggle_translation ([] : Store) 1 none) 1 none) 1).group_name
      = some "" ∧
    (_get_group_settings ([] : Store) 1).group_name = none ∧
    (_get_group_settings
        (toggle_translation (toggle_translation ([] : Store) 1 none) 1 none) 1).group_name
      ≠ (_get_group_settings ([] : Store) 1).group_name := by
  decide

/-- C3 (amended): toggling twice with no display name restores
`auto_translate` to its original value and neither toggle changes
`source_langs`; `group_name` is unchanged when the group already had a
persisted record, while for a never-configured group the toggles
materialize it as the empty string — in both cases the final `group_name`
is `some` of the original one defaulted to `""`. -/
theorem c3_toggle_involution (st : Store) (gid : Int) :
    ((_get_group_settings
        (toggle_translation (toggle_translation st gid none) gid none) gid).auto_translate
      = (_get_group_settings st gid).auto_translate) ∧
    ((_get_group_settings (toggle_translation st gid none) gid).source_langs
      = (_get_group_settings st gid).source_langs) ∧
    ((_get_group_settings
        (toggle_translation (toggle_translation st gid none) gid none) gid).source_langs
      = (_get_group_settings st gid).source_langs) ∧
    ((_get_group_settings
        (toggle_translation (toggle_translation st gid none) gid none) gid).group_name
      = some ((_get_group_settings st gid).group_name.getD "")) := by
  rw [read_toggle_none (toggle_translation st gid none) gid, read_toggle_none st gid]
  refine ⟨?_, ?_, ?_, ?_⟩ <;> simp

/-- C5: with `auto_translate` false the pipeline returns at its first
check: Skip, no provider call, no reply. -/
theorem c5_disabled_skip (p : Provider) (st : Store) (gid : Int) (text : String)
    (h : (_get_group_settings st gid).auto_translate = false) :
    handle_translation p st gid text = (Action.Skip "disabled", []) := by
  unfold handle_translation
  rw [if_pos h]

/-- Witness for C5: an unconfigured group is disabled, so any message is
skipped with no calls. -/
theorem c5_disabled_skip_witness :
    handle_translation
        ⟨fun _ => Except.ok "en", fun t _ _ => Except.ok t⟩ [] 1 "Good morning everyone"
      = (Action.Skip "disabled", []) :=
  c5_disabled_skip _ [] 1 "Good morning everyone" (by decide)

/-- C6: in an enabled group, an empty message or one shorter than 5
characters after stripping is skipped as too short, before any detection
call is made. -/
theorem c6_too_short_skip (p : Provider) (st : Store) (gid : Int) (text : String)
    (hauto : (_get_group_settings st gid).auto_translate = true)
    (hshort : text = "" ∨ (pyStrip text).length < 5) :
    handle_translation p st gid text = (Action.Skip "too short", []) := by
  unfold handle_translation
  rw [if_neg (by simp [hauto]), if_pos hshort]

/-- Witness for C6: an enabled group and the message `"hi"`. -/
theorem c6_too_short_skip_witness :
    handle_translation
        ⟨fun _ => Except.ok "en", fun t _ _ => Except.ok t⟩
        [⟨1, "g", 1, "en,id", "my"⟩] 1 "hi"
      = (Action.Skip "too short", []) :=
  c6_too_short_skip _ [⟨1, "g", 1, "en,id", "my"⟩] 1 "hi" (by decide) (by decide)

/-- C7: when the provider's detect call raises, or its translate call
raises whenever invoked on this text, the pipeline yields a Skip — the
`except` clauses in `detect_language` / `translate_text` turn the raise
into `None` and no branch re-raises (the embedding is a total function,
so nothing propagates to the caller) — and no reply of any kind is sent. -/
theorem c7_provider_failure_skip (p : Provider) (st : Store) (gid : Int) (text : String)
    (h : (∃ e, p.detect text = Except.error e) ∨
      (∀ s d, ∃ e, p.translate text s d = Except.error e)) :
    (∃ r, (handle_translation p st gid text).1 = Action.Skip r) ∧
      ∀ t, Eff.reply t ∉ (handle_translation p st gid text).2 := by
  unfold handle_translation
  by_cases h1 : (_get_group_settings st gid).auto_translate = false
  · rw [if_pos h1]
    exact ⟨⟨"disabled", rfl⟩, by simp⟩
  · rw [if_neg h1]
    by_cases h2 : text = "" ∨ (pyStrip text).length < 5
    · rw [if_pos h2]
      exact ⟨⟨"too short", rfl⟩, by simp⟩
    · rw [if_neg h2]
      rcases h with ⟨e, he⟩ | htr
      · have hdl : detect_language p text = none := by
          simp [detect_language, he]
        simp only [hdl]
        exact ⟨⟨"detection failed", rfl⟩, by simp⟩
      · cases hraw : p.detect text with
        | error e =>
          have hdl : detect_language p text = none := by
            simp [detect_language, hraw]
          simp only [hdl]
          exact ⟨⟨"detection failed", rfl⟩, by simp⟩
        | ok l =>
          have hdl : detect_language p text = some l := by
            simp [detect_language, hraw]
          simp only [hdl]
          by_cases h3 : l = ""
          · rw [if_pos h3]
            exact ⟨⟨"detection failed", rfl⟩, by simp⟩
          · rw [if_neg h3]
            by_cases h4 : l ∈ (_get_group_settings st gid).source_langs
            · rw [if_pos h4]
              by_cases h5 : l = (_get_group_settings st gid).target_lang
              · rw [if_pos h5]
                exact ⟨⟨"already target language", rfl⟩, by simp⟩
              · rw [if_neg h5]
                have htt : translate_text p text l
                    (_get_group_settings st gid).target_lang = none := by
                  obtain ⟨e, he⟩ := htr l (_get_group_settings st gid).target_lang
                  simp [translate_text, he]
                simp only [htt]
                exact ⟨⟨"translation failed", rfl⟩, by simp⟩
            · rw [if_neg h4]
              exact ⟨⟨"source not eligible", rfl⟩, by simp⟩

/-- Witness for C7: a provider whose calls all raise, an enabled group
and a long message. -/
theorem c7_provider_failure_skip_witness :
    (∃ r, (handle_translation
        ⟨fun _ => Except.error "api down", fun _ _ _ => Except.error "api down"⟩
        [⟨1, "g", 1, "en,id", "my"⟩] 1 "Good morning everyone").1 = Action.Skip r) ∧
      ∀ t, Eff.reply t ∉ (handle_translation
        ⟨fun _ => Except.error "api down", fun _ _ _ => Except.error "api down"⟩
        [⟨1, "g", 1, "en,id", "my"⟩] 1 "Good morning everyone").2 :=
  c7_provider_failure_skip _ _ 1 "Good morning everyone" (Or.inl ⟨"api down", rfl⟩)

/-- C8 counterexample: enabled group with `source_langs = [en, id]` and
`target_lang = my`; a long message detected as `my` equals the target
language, yet the pipeline skips with "source not eligible" (the
membership test at line 153 fires before the target test at line 157),
not with "already target language". -/
theorem c8_counterexample :
    (handle_translation
        ⟨fun _ => Except.ok "my", fun t _ _ => Except.ok t⟩
        [⟨1, "g", 1, "en,id", "my"⟩] 1 "Good morning everyone").1
      = Action.Skip "source not eligible" ∧
    (handle_translation
        ⟨fun _ => Except.ok "my", fun t _ _ => Except.ok t⟩
        [⟨1, "g", 1, "en,id", "my"⟩] 1 "Good morning everyone").1
      ≠ Action.Skip "already target language" := by
  decide

/-- C8 (amended): in an enabled group, for a sufficiently long message
whose detected language equals `target_lang`, the pipeline never invokes
the translate call; the skip reason is "already target language" when the
detected language is also a member of `source_langs`, and "source not
eligible" otherwise (the membership check comes first in the source). -/
theorem c8_already_target_skip (p : Provider) (st : Store) (gid : Int)
    (text l : String)
    (hauto : (_get_group_settings st gid).auto_translate = true)
    (hlen : ¬(text = "" ∨ (pyStrip text).length < 5))
    (hdet : p.detect text = Except.ok l)
    (hl : l ≠ "")
    (htgt : l = (_get_group_settings st gid).target_lang) :
    (handle_translation p st gid text).1
      = (if l ∈ (_get_group_settings st gid).source_langs
          then Action.Skip "already target language"
          else Action.Skip "source not eligible") ∧
      ∀ a b c, Eff.translate a b c ∉ (handle_translation p st gid text).2 := by
  have hdl : detect_language p text = some l := by
    simp [detect_language, hdet]
  unfold handle_translation
  rw [if_neg (by simp [hauto]), if_neg hlen]
  simp only [hdl]
  rw [if_neg hl]
  by_cases hm : l ∈ (_get_group_settings st gid).source_langs
  · rw [if_pos hm, if_pos htgt, if_pos hm]
    exact ⟨rfl, by simp⟩
  · rw [if_neg hm, if_neg hm]
    exact ⟨rfl, by simp⟩

/-- Witness for C8 (amended): a group stored with `source_langs = [en, my]`
and `target_lang = my`, message detected as `my`. -/
theorem c8_already_target_skip_witness :
    (handle_translation
        ⟨fun _ => Except.ok "my", fun t _ _ => Except.ok t⟩
        [⟨1, "g", 1, "en,my", "my"⟩] 1 "Good morning everyone").1
      = (if "my" ∈ (_get_group_settings [⟨1, "g", 1, "en,my", "my"⟩] 1).source_langs
          then Action.Skip "already target language"
          else Action.Skip "source not eligible") ∧
      ∀ a b c, Eff.translate a b c ∉ (handle_translation
        ⟨fun _ => Except.ok "my", fun t _ _ => Except.ok t⟩
        [⟨1, "g", 1, "en,my", "my"⟩] 1 "Good morning everyone").2 :=
  c8_already_target_skip _ _ 1 "Good morning everyone" "my"
    (by decide) (by decide) rfl (by decide) (by decide)

/-- C1 counterexample: with the configured group and `"Good morning
everyone"` detected as `en`, a provider whose translation succeeds but
returns the empty string produces no Translate action — the `if
translated:` truthiness test at line 167 drops it — so "translates to
some result T implies Translate(en, my, T)" fails at `T = ""`. -/
theorem c1_counterexample :
    (handle_translation
        ⟨fun _ => Except.ok "en", fun _ _ _ => Except.ok ""⟩
        [⟨1, "g", 1, "en,id", "my"⟩] 1 "Good morning everyone").1
      = Action.Skip "translation failed" ∧
    (handle_translation
        ⟨fun _ => Except.ok "en", fun _ _ _ => Except.ok ""⟩
        [⟨1, "g", 1, "en,id", "my"⟩] 1 "Good morning everyone").1
      ≠ Action.Translate "en" "my" "" := by
  decide

/-- C1 (amended): a group stored as `auto_translate` on, `source_langs =
"en,id"`, `target_lang = "my"`; `"Good morning everyone"` detected as
`en` and translated to a non-empty `T` yields `Translate(en, my, T)` (a
translated reply, not a Skip); for `T = ""` the message is skipped. -/
theorem c1_translate_end_to_end (p : Provider) (st : Store) (gid : Int)
    (name : String) (a : Int) (T : String)
    (hrow : st.find? (fun r => r.group_id == gid) = some ⟨gid, name, a, "en,id", "my"⟩)
    (ha : a ≠ 0)
    (hdet : p.detect "Good morning everyone" = Except.ok "en")
    (htr : p.translate "Good morning everyone" "en" "my" = Except.ok T)
    (hT : T ≠ "") :
    (handle_translation p st gid "Good morning everyone").1
      = Action.Translate "en" "my" T := by
  have hs : _get_group_settings st gid =
      ⟨gid, some name, true, ["en", "id"], "my"⟩ := by
    unfold _get_group_settings
    rw [hrow]
    have h1 : pySplit "en,id" = ["en", "id"] := by decide
    simp [h1, ha]
  have hauto : (_get_group_settings st gid).auto_translate = true := by rw [hs]
  have hlangs : (_get_group_settings st gid).source_langs = ["en", "id"] := by rw [hs]
  have htgt : (_get_group_settings st gid).target_lang = "my" := by rw [hs]
  have hdl : detect_language p "Good morning everyone" = some "en" := by
    simp [detect_language, hdet]
  have htt : translate_text p "Good morning everyone" "en" "my" = some T := by
    simp [translate_text, htr]
  unfold handle_translation
  rw [if_neg (by simp [hauto])]
  rw [if_neg (by decide :
    ¬("Good morning everyone" = "" ∨ (pyStrip "Good morning everyone").length < 5))]
  simp only [hdl]
  rw [if_neg (by decide : ¬("en" : String) = "")]
  rw [hlangs, htgt]
  rw [if_pos (by decide : ("en" : String) ∈ ["en", "id"])]
  rw [if_neg (by decide : ¬("en" : String) = "my")]
  simp only [htt]
  rw [if_neg hT]

/-- Witness for C1 (amended): concrete store, provider and translation. -/
theorem c1_translate_end_to_end_witness :
    (handle_translation
        ⟨fun _ => Except.ok "en", fun _ _ _ => Except.ok "mingalaba"⟩
        [⟨1, "g", 1, "en,id", "my"⟩] 1 "Good morning everyone").1
      = Action.Translate "en" "my" "mingalaba" :=
  c1_translate_end_to_end _ _ 1 "g" 1 "mingalaba" (by decide) (by decide) rfl rfl
    (by decide)

/-- C4 counterexample: the schedule read-A, read-B, write-A, write-B is a
legal execution because `db_lock` is held only inside each single store
call (lines 79 and 104), and from the fresh table it leaves
`auto_translate = true` for group 1, while both serial orders of the two
identical toggles leave `false`: a lost update, so the final state is not
the result of any serial composition and the read-modify-write does not
run inside one critical-section span. -/
theorem c4_counterexample :
    (_get_group_settings
        (runSched 1 none none [true, false, true, false]
          (([] : Store), Phase.start, Phase.start)).1 1).auto_translate = true ∧
    (_get_group_settings
        (toggle_translation (toggle_translation ([] : Store) 1 none) 1 none) 1).auto_translate
      = false := by
  decide

/-- C4 (amended): each store call of a toggle is individually atomic, so
only the schedules in which one toggle's read and write both complete
before the other's begin reproduce a serial composition; interleaved
schedules may lose an update. -/
theorem c4_serial_schedules (st : Store) (gid : Int) (tA tB : Option String) :
    (runSched gid tA tB [true, true, false, false] (st, Phase.start, Phase.start)).1
        = toggle_translation (toggle_translation st gid tA) gid tB ∧
      (runSched gid tA tB [false, false, true, true] (st, Phase.start, Phase.start)).1
        = toggle_translation (toggle_translation st gid tB) gid tA :=
  ⟨rfl, rfl⟩

/-- C9: the ban command on a message that is not a reply sends only the
corrective reply, never calls the transport's ban primitive, and leaves
the stored settings unchanged. -/
theorem c9_ban_requires_reply (chat : Int) (b : Except String Unit) (st : Store) :
    ban_user ⟨none, chat, b⟩ st
        = ([Eff.reply "Please reply to the user's message to ban them."], st) ∧
      ∀ c u, Eff.banMember c u ∉ (ban_user ⟨none, chat, b⟩ st).1 := by
  refine ⟨rfl, ?_⟩
  intro c u
  simp [ban_user]

/-- C10: upserting a full settings record (with a `group_name` present, a
non-empty `source_langs` and comma-free codes) and reading the same group
back returns the identical record: the comma join/split and the int/bool
encodings round-trip. -/
theorem c10_upsert_read_roundtrip (st : Store) (gid : Int) (s : GroupSettings)
    (n : String)
    (hname : s.group_name = some n)
    (hid : s.group_id = gid)
    (hne : s.source_langs ≠ [])
    (hcf : ∀ l ∈ s.source_langs, ',' ∉ l.data) :
    _get_group_settings (_update_group_settings st gid s) gid = s := by
  rw [read_upsert_self, pySplit_pyJoin s.source_langs hne hcf, hname]
  cases s
  simp_all

/-- Witness for C10: a concrete record round-trips through the store. -/
theorem c10_upsert_read_roundtrip_witness :
    _get_group_settings
        (_update_group_settings [] 7 ⟨7, some "My Group", true, ["en", "id"], "my"⟩) 7
      = ⟨7, some "My Group", true, ["en", "id"], "my"⟩ :=
  c10_upsert_read_roundtrip [] 7 ⟨7, some "My Group", true, ["en", "id"], "my"⟩
    "My Group" rfl rfl (by decide) (by decide)

end Bot
